import Mathlib

/-!
Shallow embedding of the DIYNAFLUOR measurement/calibration core
(`src/fluorometer.py` and `src/python/main.py`).

Numbers are modelled as rationals (`ℚ`).  Effects are made explicit:
the serial link and the demo random generator become oracle arguments of
`Fluorometer.read`, and a failing device read is the `none` case of the
`Option ℚ` response oracle.
-/

namespace DIYNAFLUOR

/-! ### Fluorometer (src/fluorometer.py) -/

/-- Embeds `Fluorometer.DEMO_PORT`: the sentinel port selecting the simulator. -/
def DEMO_PORT : String := "DEMO"

/-- Embeds `Fluorometer._demo_init_values`: the fixed first two demo readings. -/
def demo_init_values : List ℚ := [0, 25000]

/-- State of a `Fluorometer` instance. `demo_idx` is an instance
attribute of the Python object (set in `__init__`), hence a field here. -/
structure Fluorometer where
  port : String
  demo_mode : Bool
  demo_idx : ℕ
  deriving DecidableEq

/-- Embeds `Fluorometer.__init__(self, port)`. In the Python code `demo_idx` is
only assigned in demo mode; it is initialised to 0 here in both modes,
which is unobservable since only the demo branch of `read` consults it. -/
def Fluorometer.init (port : String) : Fluorometer :=
  { port := port, demo_mode := port == DEMO_PORT, demo_idx := 0 }

/-- Python `int(q)` truncates toward zero. -/
def pythonInt (q : ℚ) : ℤ :=
  if 0 ≤ q then ⌊q⌋ else ⌈q⌉

/-- The request string written to the serial line in real mode:
`f'r{int(led_power*255/100)}\r'`. -/
def Fluorometer.request (led_power : ℚ) : String :=
  "r" ++ toString (pythonInt (led_power * 255 / 100)) ++ "\r"

/-- Embeds `Fluorometer.read(self, led_power)`.

Oracles: `rand` is the value of `random.random()` (used only when the
demo branch leaves the fixed initial values), and `response` is the
parsed serial response in real mode (`none` models an empty/timed-out or
unparsable response, which raises in Python).

The result is the pair of (written request, outcome): the request is
`none` in demo mode (no I/O), and the outcome is `none` exactly when the
Python call raises.  A successful outcome carries the returned value and
the updated instance state. -/
def Fluorometer.read (f : Fluorometer) (led_power rand : ℚ)
    (response : Option ℚ) : Option String × Option (ℚ × Fluorometer) :=
  if f.demo_mode then
    if f.demo_idx < demo_init_values.length then
      (none, some (demo_init_values.getD f.demo_idx 0,
                   { f with demo_idx := f.demo_idx + 1 }))
    else
      (none, some (rand * 25000, f))
  else
    (some (Fluorometer.request led_power),
     match response with
     | none => none
     | some v => some (v, f))

/-! ### QuantificationKit (src/python/main.py, lines 10–89) -/

structure QuantificationKit where
  name : String
  units : String
  standards : List ℚ
  tube_volume : ℚ
  led_power : ℚ
  deriving DecidableEq

/-- Embeds `QuantificationKit.validate_standard`.  The Python `-1` index is
rendered with `List.getLast?`: the list is empty iff `getLast?` is
`none`. -/
def QuantificationKit.validate_standard (_kit : QuantificationKit)
    (standard_measurements : List ℚ) (measurement : ℚ) : Bool :=
  match standard_measurements.getLast? with
  | none => true
  | some last => if measurement ≤ last + 1000 then false else true

/-- Ordinary least-squares line through the paired points: the
mathematical content of `np.polyfit(xs, ys, 1)` (slope, intercept). -/
def polyfit1 (xs ys : List ℚ) : ℚ × ℚ :=
  let n : ℚ := xs.length
  let sx := xs.sum
  let sy := ys.sum
  let sxy := (List.zipWith (fun a b => a * b) xs ys).sum
  let sxx := (xs.map (fun a => a * a)).sum
  let slope := (n * sxy - sx * sy) / (n * sxx - sx * sx)
  (slope, (sy - slope * sx) / n)

/-- Embeds `QuantificationKit.calculate_tube_concentrations`. -/
def QuantificationKit.calculate_tube_concentrations (kit : QuantificationKit)
    (standard_measurements measurements : List ℚ) : List ℚ :=
  let p := polyfit1 standard_measurements kit.standards
  measurements.map (fun m => m * p.1 + p.2)

/-- Python division, which raises `ZeroDivisionError` on a zero divisor. -/
def pyDiv (a b : ℚ) : Option ℚ :=
  if b = 0 then none else some (a / b)

/-- One element of the comprehension in
`QuantificationKit.calculate_sample_concentrations`:
`tc * self.tube_volume / sv if sv != 0 else 0`, with the division kept
fallible as in Python. -/
def QuantificationKit.sampleConcEntry (kit : QuantificationKit)
    (tc sv : ℚ) : Option ℚ :=
  if sv ≠ 0 then pyDiv (tc * kit.tube_volume) sv else some 0

/-- Collects the elementwise results of a Python list comprehension:
`none` as soon as any element raises. -/
def collectResults : List (Option ℚ) → Option (List ℚ)
  | [] => some []
  | o :: rest => do
      let v ← o
      let vs ← collectResults rest
      pure (v :: vs)

/-- Embeds `QuantificationKit.calculate_sample_concentrations(sample_volumes,
tube_concentrations)`: the comprehension iterates
`zip(tube_concentrations, sample_volumes)`. -/
def QuantificationKit.calculate_sample_concentrations (kit : QuantificationKit)
    (sample_volumes tube_concentrations : List ℚ) : Option (List ℚ) :=
  collectResults
    (List.zipWith kit.sampleConcEntry tube_concentrations sample_volumes)

/-- Total closed form of the same comprehension; the sample-concentration
theorem below proves `calculate_sample_concentrations` always succeeds
with this value, so the session state machine may use it directly. -/
def QuantificationKit.sampleConcsTotal (kit : QuantificationKit)
    (sample_volumes tube_concentrations : List ℚ) : List ℚ :=
  List.zipWith (fun tc sv => if sv ≠ 0 then tc * kit.tube_volume / sv else 0)
    tube_concentrations sample_volumes

/-- First catalog entry. -/
def highSensitivity : QuantificationKit :=
  ⟨"High Sensitivity", "ng/uL", [0, 1/2], 200, 100⟩

/-- Second catalog entry. -/
def broadRange : QuantificationKit :=
  ⟨"Broad Range", "ng/uL", [0, 5], 200, 100⟩

/-- The kit catalog `quantification_kits`. -/
def quantification_kits : List QuantificationKit :=
  [highSensitivity, broadRange]

/-! ### QuantificationKitModel (src/python/main.py, lines 91–206) -/

structure QuantificationKitModel where
  quantification_kit : QuantificationKit
  units : String
  standard_measurements : List ℚ
  standard_concentrations : List ℚ
  measurements : List ℚ
  sample_inputs : List ℚ
  tube_concentrations : List ℚ
  sample_concentrations : List ℚ
  error : Bool
  error_message : String
  deriving DecidableEq

/-- Embeds `QuantificationKitModel.__init__` (the `Fluorometer` it constructs is
held separately in this embedding, since `measure` consumes the device
read as an explicit oracle). -/
def QuantificationKitModel.init (kit : QuantificationKit) :
    QuantificationKitModel :=
  { quantification_kit := kit
    units := kit.units
    standard_measurements := []
    standard_concentrations := []
    measurements := []
    sample_inputs := []
    tube_concentrations := []
    sample_concentrations := []
    error := false
    error_message := "No error set." }

/-- Error message set when the device read raises. -/
def readFailureMessage : String :=
  "Previous measurement failed.\nCheck the fluorometer is connected."

/-- Error message set when `validate_standard` rejects a reading;
`slot` is `len(standard_measurements)+1`. -/
def standardRejectMessage (slot : ℕ) : String :=
  "Previous measurement failed.\nCheck the correct standard (#"
    ++ toString slot ++ ") has been inserted."

/-- Embeds `QuantificationKitModel.measure(led_power, known_concentration,
sample_input)`.  `led_power` and `known_concentration` are unused by the
Python code (the kit's own `led_power` is used for the read); the device
read outcome is the `reading` oracle, `none` when
`self.fluorometer.read` raises. -/
def QuantificationKitModel.measure (m : QuantificationKitModel)
    (reading : Option ℚ) (sample_input : ℚ) : QuantificationKitModel :=
  match reading with
  | none =>
      { m with error := true, error_message := readFailureMessage }
  | some measurement =>
      let m := { m with error := false, error_message := "No error set." }
      if m.standard_measurements.length < m.quantification_kit.standards.length then
        if m.quantification_kit.validate_standard m.standard_measurements measurement then
          { m with
            standard_concentrations := m.standard_concentrations ++
              [m.quantification_kit.standards.getD m.standard_measurements.length 0],
            standard_measurements := m.standard_measurements ++ [measurement] }
        else
          { m with
            error := true,
            error_message :=
              standardRejectMessage (m.standard_measurements.length + 1) }
      else
        let measurements := m.measurements ++ [measurement]
        let sample_inputs := m.sample_inputs ++ [sample_input]
        let tube_concentrations :=
          m.quantification_kit.calculate_tube_concentrations
            m.standard_measurements measurements
        { m with
          measurements := measurements
          sample_inputs := sample_inputs
          tube_concentrations := tube_concentrations
          sample_concentrations :=
            m.quantification_kit.sampleConcsTotal sample_inputs
              tube_concentrations }

/-- Folds a whole session: one `measure` call per trace element
(device-read outcome, `sample_input` argument). -/
def QuantificationKitModel.run (m : QuantificationKitModel) :
    List (Option ℚ × ℚ) → QuantificationKitModel
  | [] => m
  | (r, si) :: rest => (m.measure r si).run rest

/-- Embeds `QuantificationKitModel.current_instruction`. -/
def QuantificationKitModel.current_instruction (m : QuantificationKitModel) :
    String :=
  if m.error then m.error_message
  else if m.standard_measurements.length < m.quantification_kit.standards.length then
    "Please measure standard #" ++
      toString (m.standard_measurements.length + 1) ++ "."
  else
    "Please measure sample."

/-! ### CSV export (src/python/main.py, lines 150–159) -/

/-- Header line of the kit-mode CSV, exactly as the code writes it
(including the code's `Flouresence` spelling). -/
def kitCsvHeader (units : String) : String :=
  "Name, Sample Concentration (" ++ units ++
    "), Measured Flouresence (arb.), Tube Concentration (" ++ units ++
    "), Sample Input (uL)\n"

/-- One standard row `Standard #i,-,m,tc,-`. -/
def standardRow (i : ℕ) (m tc : ℚ) : String :=
  "Standard #" ++ toString i ++ ",-," ++ toString m ++ "," ++ toString tc
    ++ ",-\n"

/-- One sample row `Sample #i,sc,m,tc,df`. -/
def sampleRow (i : ℕ) (sc m tc df : ℚ) : String :=
  "Sample #" ++ toString i ++ "," ++ toString sc ++ "," ++ toString m ++
    "," ++ toString tc ++ "," ++ toString df ++ "\n"

/-- Zip of four parallel lists, as in the second loop of
`generate_csv`. -/
def zip4 : List ℚ → List ℚ → List ℚ → List ℚ → List (ℚ × ℚ × ℚ × ℚ)
  | a :: as, b :: bs, c :: cs, d :: ds => (a, b, c, d) :: zip4 as bs cs ds
  | _, _, _, _ => []

/-- Embeds `QuantificationKitModel.generate_csv`: the accumulating loops of the
Python code, rendered as folds over the enumerated zipped lists. -/
def QuantificationKitModel.generate_csv (m : QuantificationKitModel) :
    String :=
  let ret := kitCsvHeader m.units
  let ret := (List.enum (m.standard_measurements.zip
      m.standard_concentrations)).foldl
    (fun acc p => acc ++ standardRow p.1 p.2.1 p.2.2) ret
  (List.enum (zip4 m.sample_concentrations m.measurements
      m.tube_concentrations m.sample_inputs)).foldl
    (fun acc p => acc ++ sampleRow p.1 p.2.1 p.2.2.1 p.2.2.2.1 p.2.2.2.2)
    ret

/-! ### Claim theorems -/

/-- C1: `validate_standard` accepts whenever the prior list is empty, and
for a non-empty prior list accepts iff the candidate strictly exceeds the
last prior measurement plus 1000; `validate_standard([500], 1400)` is
rejected and `validate_standard([500], 1501)` is accepted. -/
theorem validate_standard_spec (kit : QuantificationKit)
    (sm : List ℚ) (v last : ℚ) :
    kit.validate_standard [] v = true
    ∧ (sm.getLast? = some last →
        (kit.validate_standard sm v = true ↔ last + 1000 < v))
    ∧ kit.validate_standard [500] 1400 = false
    ∧ kit.validate_standard [500] 1501 = true := by
  refine ⟨rfl, ?_, ?_, ?_⟩
  · intro h
    unfold QuantificationKit.validate_standard
    rw [h]
    by_cases hle : v ≤ last + 1000
    · simp [hle, not_lt_of_le hle]
    · simp [hle, lt_of_not_le hle]
  · norm_num [QuantificationKit.validate_standard]
  · norm_num [QuantificationKit.validate_standard]

/-- Witness for `validate_standard_spec` at a concrete input. -/
theorem validate_standard_spec_witness :
    ([(500 : ℚ)].getLast? = some 500)
    ∧ (highSensitivity.validate_standard [500] 1501 = true ↔
        (500 : ℚ) + 1000 < 1501) := by
  refine ⟨rfl, ?_⟩
  exact (validate_standard_spec highSensitivity [500] 1501 500).2.1 rfl

/-- C5 counterexample: with kit standards `[0, 10]`, after an accepted
first standard read of 500, a second standard read of `1500` is NOT
accepted, because `1500 ≤ 500 + 1000` (the validation demands a strict
excess): the reading is discarded and the error flag is set, falsifying
the claim that the reads 500 and 1500 are both accepted. -/
theorem standards_500_1500_second_rejected :
    (QuantificationKit.mk "Test" "ng/uL" [0, 10] 200 100).validate_standard
        [500] 1500 = false
    ∧ (((QuantificationKitModel.init
          (QuantificationKit.mk "Test" "ng/uL" [0, 10] 200 100)).measure
            (some 500) 10).measure (some 1500) 10).standard_measurements
        = [500]
    ∧ (((QuantificationKitModel.init
          (QuantificationKit.mk "Test" "ng/uL" [0, 10] 200 100)).measure
            (some 500) 10).measure (some 1500) 10).error = true := by
  refine ⟨?_, ?_, ?_⟩ <;>
    norm_num [QuantificationKitModel.init, QuantificationKitModel.measure,
      QuantificationKit.validate_standard]

/-- C5 amended: with kit standards `[0, 10]`, consecutive standard reads
of 500 and 1501 are both accepted (`1501 > 500 + 1000`), and the
least-squares fit through the two accepted points maps a measurement of
500 to tube concentration 0 and 1501 to 10 exactly. -/
theorem standards_500_1501_two_point_fit :
    (QuantificationKit.mk "Test" "ng/uL" [0, 10] 200 100).validate_standard
        [] 500 = true
    ∧ (QuantificationKit.mk "Test" "ng/uL" [0, 10] 200 100).validate_standard
        [500] 1501 = true
    ∧ (((QuantificationKitModel.init
          (QuantificationKit.mk "Test" "ng/uL" [0, 10] 200 100)).measure
            (some 500) 10).measure (some 1501) 10).standard_measurements
        = [500, 1501]
    ∧ (QuantificationKit.mk "Test" "ng/uL" [0, 10] 200 100).calculate_tube_concentrations
        [500, 1501] [500, 1501] = [0, 10] := by
  refine ⟨rfl, ?_, ?_, ?_⟩
  · norm_num [QuantificationKit.validate_standard]
  · norm_num [QuantificationKitModel.init, QuantificationKitModel.measure,
      QuantificationKit.validate_standard]
  · norm_num [QuantificationKit.calculate_tube_concentrations, polyfit1]

/-- C6: `calculate_sample_concentrations` never hits the fallible
division: it always succeeds, elementwise yielding 0 when the sample
input volume is 0 and `tc * tube_volume / sv` otherwise; concretely,
with tube volume 200, tube concentration 5 and sample input 10 give 100,
and sample input 0 gives 0 (no exception). -/
theorem calculate_sample_concentrations_total (kit : QuantificationKit)
    (svs tcs : List ℚ) :
    kit.calculate_sample_concentrations svs tcs
        = some (kit.sampleConcsTotal svs tcs)
    ∧ (∀ tc sv : ℚ, kit.sampleConcEntry tc sv
        = some (if sv = 0 then 0 else tc * kit.tube_volume / sv))
    ∧ highSensitivity.calculate_sample_concentrations [10] [5] = some [100]
    ∧ highSensitivity.calculate_sample_concentrations [0] [5] = some [0] := by
  have entry : ∀ k : QuantificationKit, ∀ tc sv : ℚ, k.sampleConcEntry tc sv
      = some (if sv = 0 then 0 else tc * k.tube_volume / sv) := by
    intro k tc sv
    unfold QuantificationKit.sampleConcEntry pyDiv
    by_cases h : sv = 0 <;> simp [h]
  have total : ∀ k : QuantificationKit, ∀ svs tcs : List ℚ,
      k.calculate_sample_concentrations svs tcs
        = some (k.sampleConcsTotal svs tcs) := by
    intro k svs tcs
    unfold QuantificationKit.calculate_sample_concentrations
      QuantificationKit.sampleConcsTotal
    induction tcs generalizing svs with
    | nil => simp [collectResults]
    | cons tc rest ih =>
        cases svs with
        | nil => simp [collectResults]
        | cons sv svrest =>
            simp only [List.zipWith_cons_cons, collectResults, entry k tc sv,
              ih svrest, Option.bind_eq_bind, Option.some_bind]
            by_cases h : sv = 0 <;> simp [h]
  refine ⟨total kit svs tcs, entry kit, ?_, ?_⟩
  · rw [total]
    norm_num [QuantificationKit.sampleConcsTotal, highSensitivity]
  · rw [total]
    norm_num [QuantificationKit.sampleConcsTotal, highSensitivity]

/-- The standards-phase session invariant: the two parallel standards
lists stay the same length, bounded by the kit's quota. -/
def standardsInv (m : QuantificationKitModel) : Prop :=
  m.standard_measurements.length = m.standard_concentrations.length
  ∧ m.standard_measurements.length ≤ m.quantification_kit.standards.length

lemma measure_quantification_kit (m : QuantificationKitModel)
    (r : Option ℚ) (si : ℚ) :
    (m.measure r si).quantification_kit = m.quantification_kit := by
  cases r with
  | none => rfl
  | some v =>
      by_cases h : m.standard_measurements.length
          < m.quantification_kit.standards.length
      · cases hv : m.quantification_kit.validate_standard
            m.standard_measurements v <;>
          simp [QuantificationKitModel.measure, h, hv]
      · simp [QuantificationKitModel.measure, h]

lemma standardsInv_step (m : QuantificationKitModel)
    (r : Option ℚ) (si : ℚ) (hm : standardsInv m) :
    standardsInv (m.measure r si) := by
  obtain ⟨h1, h2⟩ := hm
  cases r with
  | none => exact ⟨h1, h2⟩
  | some v =>
      by_cases h : m.standard_measurements.length
          < m.quantification_kit.standards.length
      · cases hv : m.quantification_kit.validate_standard
            m.standard_measurements v <;>
          simp [standardsInv, QuantificationKitModel.measure, h, hv]
        · exact ⟨h1, h2⟩
        · exact ⟨by omega, by omega⟩
      · simpa [standardsInv, QuantificationKitModel.measure, h] using ⟨h1, h2⟩

lemma standardsInv_run (m : QuantificationKitModel)
    (trace : List (Option ℚ × ℚ)) (hm : standardsInv m) :
    standardsInv (m.run trace) := by
  induction trace generalizing m with
  | nil => exact hm
  | cons step rest ih =>
      exact ih _ (standardsInv_step m step.1 step.2 hm)

lemma run_quantification_kit (m : QuantificationKitModel)
    (trace : List (Option ℚ × ℚ)) :
    (m.run trace).quantification_kit = m.quantification_kit := by
  induction trace generalizing m with
  | nil => rfl
  | cons step rest ih =>
      exact (ih _).trans (measure_quantification_kit m step.1 step.2)

/-- C2: after any sequence of `measure` calls from a fresh kit session,
`len standard_measurements = len standard_concentrations ≤
len kit.standards`; while the standards quota is unmet no call appends a
sample; and once the quota (two standards) is full, a successful call
appends to the sample measurement list and leaves
`standard_measurements` unchanged. -/
theorem measure_standards_invariant (kit : QuantificationKit)
    (trace : List (Option ℚ × ℚ)) (m : QuantificationKitModel)
    (r : Option ℚ) (v si : ℚ) :
    (((QuantificationKitModel.init kit).run trace).standard_measurements.length
        = ((QuantificationKitModel.init kit).run trace).standard_concentrations.length
      ∧ ((QuantificationKitModel.init kit).run trace).standard_measurements.length
        ≤ kit.standards.length)
    ∧ (m.standard_measurements.length < m.quantification_kit.standards.length →
        (m.measure r si).measurements = m.measurements)
    ∧ (m.quantification_kit.standards.length = 2 →
        m.standard_measurements.length = 2 →
        (m.measure (some v) si).measurements = m.measurements ++ [v]
        ∧ (m.measure (some v) si).standard_measurements
            = m.standard_measurements) := by
  refine ⟨?_, ?_, ?_⟩
  · have hinv : standardsInv ((QuantificationKitModel.init kit).run trace) :=
      standardsInv_run _ trace ⟨rfl, by simp [QuantificationKitModel.init]⟩
    have hkit : ((QuantificationKitModel.init kit).run trace).quantification_kit
        = kit := run_quantification_kit (QuantificationKitModel.init kit) trace
    have h2 := hinv.2
    rw [hkit] at h2
    exact ⟨hinv.1, h2⟩
  · intro h
    cases r with
    | none => rfl
    | some w =>
        cases hv : m.quantification_kit.validate_standard
            m.standard_measurements w <;>
          simp [QuantificationKitModel.measure, h, hv]
  · intro hlen hsm
    have h : ¬ m.standard_measurements.length
        < m.quantification_kit.standards.length := by omega
    constructor <;> simp [QuantificationKitModel.measure, h]

/-- Witness for `measure_standards_invariant`: a concrete High
Sensitivity session in which two standards (500, then 1600) are
accepted; the invariant holds, a call on the fresh session does not
touch the sample list, and the third successful call appends its reading
800 to the samples. -/
theorem measure_standards_invariant_witness :
    (((QuantificationKitModel.init highSensitivity).run
        [(some 500, 10), (some 1600, 10)]).standard_measurements.length
      = ((QuantificationKitModel.init highSensitivity).run
        [(some 500, 10), (some 1600, 10)]).standard_concentrations.length)
    ∧ ((QuantificationKitModel.init highSensitivity).measure
        (some 300) 7).measurements
      = (QuantificationKitModel.init highSensitivity).measurements
    ∧ (((QuantificationKitModel.init highSensitivity).run
        [(some 500, 10), (some 1600, 10)]).measure (some 800) 7).measurements
      = ((QuantificationKitModel.init highSensitivity).run
        [(some 500, 10), (some 1600, 10)]).measurements ++ [800] := by
  refine ⟨(measure_standards_invariant highSensitivity
      [(some 500, 10), (some 1600, 10)]
      (QuantificationKitModel.init highSensitivity) none 0 0).1.1, ?_, ?_⟩
  · exact (measure_standards_invariant highSensitivity []
      (QuantificationKitModel.init highSensitivity) (some 300) 0 7).2.1
      (by norm_num [QuantificationKitModel.init, highSensitivity])
  · refine ((measure_standards_invariant highSensitivity []
      ((QuantificationKitModel.init highSensitivity).run
        [(some 500, 10), (some 1600, 10)]) none 800 7).2.2 ?_ ?_).1
    · norm_num [QuantificationKitModel.run, QuantificationKitModel.init,
        QuantificationKitModel.measure, QuantificationKit.validate_standard,
        highSensitivity]
    · norm_num [QuantificationKitModel.run, QuantificationKitModel.init,
        QuantificationKitModel.measure, QuantificationKit.validate_standard,
        highSensitivity]

/-- C3: a failed device read sets `error` with the kit-mode message and
leaves every accumulated list untouched, and a subsequent successful
read produces exactly the state a direct successful read would have
produced (so `error` ends up cleared whenever the reading is accepted or
the quota is already met). -/
theorem measure_read_failure_recovery (m : QuantificationKitModel)
    (si si' v : ℚ) :
    (m.measure none si).error = true
    ∧ (m.measure none si).error_message = readFailureMessage
    ∧ (m.measure none si).standard_measurements = m.standard_measurements
    ∧ (m.measure none si).standard_concentrations = m.standard_concentrations
    ∧ (m.measure none si).measurements = m.measurements
    ∧ (m.measure none si).sample_inputs = m.sample_inputs
    ∧ (m.measure none si).tube_concentrations = m.tube_concentrations
    ∧ (m.measure none si).sample_concentrations = m.sample_concentrations
    ∧ (m.measure none si).measure (some v) si' = m.measure (some v) si'
    ∧ (m.standard_measurements.length < m.quantification_kit.standards.length →
        m.quantification_kit.validate_standard m.standard_measurements v = true →
        ((m.measure none si).measure (some v) si').error = false)
    ∧ (m.quantification_kit.standards.length ≤ m.standard_measurements.length →
        ((m.measure none si).measure (some v) si').error = false) := by
  refine ⟨rfl, rfl, rfl, rfl, rfl, rfl, rfl, rfl, rfl, ?_, ?_⟩
  · intro h hv
    simp [QuantificationKitModel.measure, h, hv]
  · intro h
    have h' : ¬ m.standard_measurements.length
        < m.quantification_kit.standards.length := by omega
    simp [QuantificationKitModel.measure, h']

/-- Witness for `measure_read_failure_recovery`: a failed read on a
fresh High Sensitivity session followed by a successful accepted read of
500 equals the direct successful read, with the error flag cleared. -/
theorem measure_read_failure_recovery_witness :
    ((QuantificationKitModel.init highSensitivity).measure none 1).measure
        (some 500) 2
      = (QuantificationKitModel.init highSensitivity).measure (some 500) 2
    ∧ (((QuantificationKitModel.init highSensitivity).measure none 1).measure
        (some 500) 2).error = false := by
  obtain ⟨-, -, -, -, -, -, -, -, heq, hclear, -⟩ :=
    measure_read_failure_recovery
      (QuantificationKitModel.init highSensitivity) 1 2 500
  refine ⟨heq, hclear ?_ ?_⟩
  · norm_num [QuantificationKitModel.init, highSensitivity]
  · norm_num [QuantificationKitModel.init, QuantificationKit.validate_standard]

/-- C4: a successful read rejected by `validate_standard` during the
standards phase sets `error` with the message naming slot
`len(standard_measurements)+1`, discards the reading, and advances
neither standards list nor the sample list. -/
theorem measure_standard_rejected (m : QuantificationKitModel) (si v : ℚ)
    (hq : m.standard_measurements.length
        < m.quantification_kit.standards.length)
    (hrej : m.quantification_kit.validate_standard
        m.standard_measurements v = false) :
    (m.measure (some v) si).error = true
    ∧ (m.measure (some v) si).error_message
        = standardRejectMessage (m.standard_measurements.length + 1)
    ∧ (m.measure (some v) si).standard_measurements = m.standard_measurements
    ∧ (m.measure (some v) si).standard_concentrations
        = m.standard_concentrations
    ∧ (m.measure (some v) si).measurements = m.measurements := by
  simp [QuantificationKitModel.measure, hq, hrej]

/-- Witness for `measure_standard_rejected`: after one accepted standard
read of 500 on a High Sensitivity session, a second read of 600 is
rejected (slot #2 message) and the standards lists do not advance. -/
theorem measure_standard_rejected_witness :
    ((((QuantificationKitModel.init highSensitivity).measure
        (some 500) 10).measure (some 600) 3).error = true)
    ∧ (((QuantificationKitModel.init highSensitivity).measure
        (some 500) 10).measure (some 600) 3).error_message
      = standardRejectMessage
          (((QuantificationKitModel.init highSensitivity).measure
            (some 500) 10).standard_measurements.length + 1)
    ∧ (((QuantificationKitModel.init highSensitivity).measure
        (some 500) 10).measure (some 600) 3).standard_measurements
      = ((QuantificationKitModel.init highSensitivity).measure
        (some 500) 10).standard_measurements := by
  obtain ⟨h1, h2, h3, -, -⟩ := measure_standard_rejected
    ((QuantificationKitModel.init highSensitivity).measure (some 500) 10) 3 600
    (by norm_num [QuantificationKitModel.init, QuantificationKitModel.measure,
      QuantificationKit.validate_standard, highSensitivity])
    (by norm_num [QuantificationKitModel.init, QuantificationKitModel.measure,
      QuantificationKit.validate_standard, highSensitivity])
  exact ⟨h1, h2, h3⟩

/-- Standard rows from index `i`, in spec shape: one row per standard. -/
def standardRows : ℕ → List (ℚ × ℚ) → String
  | _, [] => ""
  | i, (m, tc) :: rest => standardRow i m tc ++ standardRows (i + 1) rest

/-- Sample rows from index `i`, in spec shape: one row per sample. -/
def sampleRows : ℕ → List (ℚ × ℚ × ℚ × ℚ) → String
  | _, [] => ""
  | i, e :: rest =>
      sampleRow i e.1 e.2.1 e.2.2.1 e.2.2.2 ++ sampleRows (i + 1) rest

/-- Header line of the kit-mode CSV exactly as the claim words it, with
the claim's `Fluoresence` spelling. -/
def kitCsvHeaderClaimed (units : String) : String :=
  "Name, Sample Concentration (" ++ units ++
    "), Measured Fluoresence (arb.), Tube Concentration (" ++ units ++
    "), Sample Input (uL)\n"

/-- The CSV output as the claim describes it: the claimed header
followed by the standard rows then the sample rows. -/
def QuantificationKitModel.generate_csv_claimed
    (m : QuantificationKitModel) : String :=
  kitCsvHeaderClaimed m.units
    ++ standardRows 0 (m.standard_measurements.zip m.standard_concentrations)
    ++ sampleRows 0 (zip4 m.sample_concentrations m.measurements
          m.tube_concentrations m.sample_inputs)

lemma enum_eq_enumFrom {α : Type} (l : List α) :
    List.enum l = List.enumFrom 0 l := rfl

lemma foldl_standardRows (l : List (ℚ × ℚ)) (i : ℕ) (acc : String) :
    (List.enumFrom i l).foldl
        (fun acc p => acc ++ standardRow p.1 p.2.1 p.2.2) acc
      = acc ++ standardRows i l := by
  induction l generalizing i acc with
  | nil => simp [standardRows]
  | cons x xs ih =>
      cases x with
      | mk mv tc =>
          simp [List.enumFrom, standardRows, ih, String.append_assoc]

lemma foldl_sampleRows (l : List (ℚ × ℚ × ℚ × ℚ)) (i : ℕ) (acc : String) :
    (List.enumFrom i l).foldl
        (fun acc p => acc ++ sampleRow p.1 p.2.1 p.2.2.1 p.2.2.2.1 p.2.2.2.2)
        acc
      = acc ++ sampleRows i l := by
  induction l generalizing i acc with
  | nil => simp [sampleRows]
  | cons x xs ih =>
      simp [List.enumFrom, sampleRows, ih, String.append_assoc]

/-- C7 counterexample: the code's CSV header spells
`Measured Flouresence (arb.)`, not the claimed
`Measured Fluoresence (arb.)`, so on a fresh High Sensitivity session
the generated CSV differs from the claimed text. -/
theorem generate_csv_header_spelling_cex :
    (QuantificationKitModel.init highSensitivity).generate_csv
      ≠ (QuantificationKitModel.init highSensitivity).generate_csv_claimed := by
  decide

/-- C7 amended: for every kit-mode session, `generate_csv` produces
exactly the header line (with the code's `Flouresence` spelling)
followed by one `Standard #i,-,m,tc,-` row per accepted standard in
order, then one `Sample #i,sc,m,tc,input` row per accepted sample in
order, and nothing else. -/
theorem generate_csv_format (m : QuantificationKitModel) :
    m.generate_csv
      = kitCsvHeader m.units
        ++ standardRows 0 (m.standard_measurements.zip
              m.standard_concentrations)
        ++ sampleRows 0 (zip4 m.sample_concentrations m.measurements
              m.tube_concentrations m.sample_inputs) := by
  simp only [QuantificationKitModel.generate_csv]
  rw [enum_eq_enumFrom, enum_eq_enumFrom, foldl_standardRows,
    foldl_sampleRows]

/-- Witness for `calculate_sample_concentrations_total` at the concrete
catalog kit (tube volume 200), sample input 10, tube concentration 5. -/
theorem calculate_sample_concentrations_total_witness :
    highSensitivity.calculate_sample_concentrations [10] [5] = some [100] :=
  (calculate_sample_concentrations_total highSensitivity [10] [5]).2.2.1

/-- Witness for `generate_csv_format` on a session holding one accepted
standard. -/
theorem generate_csv_format_witness :
    (((QuantificationKitModel.init highSensitivity).measure
        (some 500) 10).generate_csv)
      = kitCsvHeader (((QuantificationKitModel.init highSensitivity).measure
            (some 500) 10).units)
        ++ standardRows 0
            ((((QuantificationKitModel.init highSensitivity).measure
                (some 500) 10).standard_measurements).zip
              (((QuantificationKitModel.init highSensitivity).measure
                (some 500) 10).standard_concentrations))
        ++ sampleRows 0
            (zip4 (((QuantificationKitModel.init highSensitivity).measure
                  (some 500) 10).sample_concentrations)
              (((QuantificationKitModel.init highSensitivity).measure
                  (some 500) 10).measurements)
              (((QuantificationKitModel.init highSensitivity).measure
                  (some 500) 10).tube_concentrations)
              (((QuantificationKitModel.init highSensitivity).measure
                  (some 500) 10).sample_inputs)) :=
  generate_csv_format
    ((QuantificationKitModel.init highSensitivity).measure (some 500) 10)

/-- C8 counterexample: at `led_power = 1` the code sends `r2\r`
(`int(1*255/100) = int(2.55) = 2`, truncation), not the `r3\r` that
rounding `2.55` would give, so the request is not built with
`round(led_power * 255 / 100)`. -/
theorem request_round_cex :
    Fluorometer.request 1 = "r2" ++ "\r"
    ∧ Fluorometer.request 1
        ≠ "r" ++ toString (round ((1 : ℚ) * 255 / 100)) ++ "\r" := by
  have h2 : pythonInt ((1 : ℚ) * 255 / 100) = 2 := by
    norm_num [pythonInt]
  have h3 : round ((1 : ℚ) * 255 / 100) = 3 := by
    norm_num [round_eq]
  constructor
  · unfold Fluorometer.request
    rw [h2]
    rfl
  · unfold Fluorometer.request
    rw [h2, h3]
    decide

/-- C8 amended: for every integer `led_power` percentage in 0..100 the
real-mode request is `r<N>\r` with `N = led_power * 255 / 100` rounded
toward zero (Nat truncating division), as `int()` truncates. -/
theorem request_truncates (p : ℕ) (hp : p ≤ 100) :
    Fluorometer.request p = "r" ++ toString (p * 255 / 100) ++ "\r" := by
  have hfloor : pythonInt ((p : ℚ) * 255 / 100) = ((p * 255 / 100 : ℕ) : ℤ) := by
    have h0 : (0 : ℚ) ≤ (p : ℚ) * 255 / 100 := by positivity
    have hcast : ((p : ℚ) * 255 / 100)
        = (((p * 255 : ℕ) : ℤ) : ℚ) / ((100 : ℕ) : ℚ) := by
      push_cast
      ring
    rw [pythonInt, if_pos h0, hcast, Rat.floor_intCast_div_natCast]
    omega
  unfold Fluorometer.request
  rw [hfloor]
  rfl

/-- Witness for `request_truncates` at `led_power = 40`:
`int(40*255/100) = int(102) = 102`. -/
theorem request_truncates_witness :
    (40 : ℕ) ≤ 100
    ∧ Fluorometer.request ((40 : ℕ) : ℚ) = "r102" ++ "\r" :=
  ⟨by norm_num, (request_truncates 40 (by norm_num)).trans (by decide)⟩

/-- Lifts a read of the first of two fluorometer instances to the pair,
leaving the second untouched — the embedding of two coexisting channel
objects. -/
def readFst (w : Fluorometer × Fluorometer) (p r : ℚ) (resp : Option ℚ) :
    Option String × Option (ℚ × (Fluorometer × Fluorometer)) :=
  ((w.1.read p r resp).1,
   (w.1.read p r resp).2.map (fun x => (x.1, (x.2, w.2))))

/-- Lifts a read of the second of two fluorometer instances to the pair,
leaving the first untouched. -/
def readSnd (w : Fluorometer × Fluorometer) (p r : ℚ) (resp : Option ℚ) :
    Option String × Option (ℚ × (Fluorometer × Fluorometer)) :=
  ((w.2.read p r resp).1,
   (w.2.read p r resp).2.map (fun x => (x.1, (w.1, x.2))))

/-- C9: on a fresh DEMO channel the first read returns 0, the second
25000, and with the random oracle in `[0,1)` every later read returns a
value in `[0, 25000)` without changing the instance state; and a read on
one of two coexisting instances never changes the other instance's
state (the demo call index is per-instance). -/
theorem demo_read_sequence (p₁ p₂ p r₁ r₂ r : ℚ)
    (resp₁ resp₂ resp : Option ℚ) (f : Fluorometer)
    (hf : f.demo_mode = true) (hi : 2 ≤ f.demo_idx)
    (hr0 : 0 ≤ r) (hr1 : r < 1) :
    (Fluorometer.init DEMO_PORT).read p₁ r₁ resp₁
        = (none, some (0, Fluorometer.mk DEMO_PORT true 1))
    ∧ (Fluorometer.mk DEMO_PORT true 1).read p₂ r₂ resp₂
        = (none, some (25000, Fluorometer.mk DEMO_PORT true 2))
    ∧ (f.read p r resp = (none, some (r * 25000, f))
        ∧ 0 ≤ r * 25000 ∧ r * 25000 < 25000)
    ∧ (∀ w : Fluorometer × Fluorometer, ∀ pp rr : ℚ, ∀ rs : Option ℚ,
        ∀ vv : ℚ, ∀ w' : Fluorometer × Fluorometer,
        ((readFst w pp rr rs).2 = some (vv, w') → w'.2 = w.2)
        ∧ ((readSnd w pp rr rs).2 = some (vv, w') → w'.1 = w.1)) := by
  have hnotlt : ¬ f.demo_idx < demo_init_values.length := by
    simp only [demo_init_values, List.length_cons, List.length_nil]
    omega
  have hinit : Fluorometer.init DEMO_PORT = Fluorometer.mk DEMO_PORT true 0 := by
    decide
  refine ⟨?_, ?_, ⟨?_, ?_, ?_⟩, ?_⟩
  · rw [hinit]
    norm_num [Fluorometer.read, demo_init_values]
  · norm_num [Fluorometer.read, demo_init_values]
  · simp [Fluorometer.read, hf, hnotlt]
  · exact mul_nonneg hr0 (by norm_num)
  · calc r * 25000 < 1 * 25000 := by
          exact mul_lt_mul_of_pos_right hr1 (by norm_num)
      _ = 25000 := one_mul _
  · intro w pp rr rs vv w'
    constructor
    · intro h
      obtain ⟨x, -, hfx⟩ := Option.map_eq_some'.mp h
      cases hfx
      rfl
    · intro h
      obtain ⟨x, -, hfx⟩ := Option.map_eq_some'.mp h
      cases hfx
      rfl

/-- Witness for `demo_read_sequence`: a DEMO instance past its two
initial reads, with random oracle 1/3, returns `(1/3)*25000` and keeps
its state. -/
theorem demo_read_sequence_witness :
    ((Fluorometer.mk DEMO_PORT true 2).read 0 ((1 : ℚ)/3) none
        = (none, some (((1 : ℚ)/3) * 25000, Fluorometer.mk DEMO_PORT true 2))
      ∧ (0 : ℚ) ≤ ((1 : ℚ)/3) * 25000 ∧ ((1 : ℚ)/3) * 25000 < 25000) := by
  obtain ⟨-, -, h3, -⟩ := demo_read_sequence 0 0 0 0 0 ((1 : ℚ)/3)
    none none none (Fluorometer.mk DEMO_PORT true 2) rfl (le_refl 2)
    (by norm_num) (by norm_num)
  exact h3

/-- C10: in demo mode both the returned value and the successor state of
`read` are independent of the `led_power` argument (and of the serial
response oracle, which demo mode never consults). -/
theorem demo_read_ignores_led_power (f : Fluorometer) (p₁ p₂ r : ℚ)
    (resp : Option ℚ) (hf : f.demo_mode = true) :
    f.read p₁ r resp = f.read p₂ r resp := by
  simp [Fluorometer.read, hf]

/-- Witness for `demo_read_ignores_led_power` on a fresh DEMO channel
with led powers 0 and 100. -/
theorem demo_read_ignores_led_power_witness :
    (Fluorometer.init DEMO_PORT).read 0 (1/2) none
      = (Fluorometer.init DEMO_PORT).read 100 (1/2) none :=
  demo_read_ignores_led_power (Fluorometer.init DEMO_PORT) 0 100 (1/2) none
    (by decide)

end DIYNAFLUOR
